import Mathlib

/-!
# puppetrun: the last-run-summary exporter (`main.go`)

A shallow embedding of `main.go`: the record `T` the report is decoded into, the
exporter built by `NewSummaryExporter`, and its `Describe` / `collect` / `Collect`
methods, together with the parts of the two libraries the program's behaviour
rests on:

* `prometheus.BuildFQName`, `prometheus.NewDesc`, `prometheus.MustNewConstMetric`;
* `reflect.StructTag.Get` and the key rule of `yaml.v2` (`getStructInfo`), which
  decide under which document key each field of `T` is filled, and the way
  `yaml.v2` stores a mapping into a struct and a scalar into a `float64` or a
  `string`.

A `float64` is kept as its 64-bit IEEE-754 pattern, a channel as the list of the
values sent on it, in order.  The exporter's mutex is not part of the model.
-/

namespace PuppetRun

/-! ## float64 -/

/-- A `float64`, kept as its IEEE-754 binary64 bit pattern. -/
structure Float64 where
  bits : Nat
  deriving DecidableEq, Repr

/-- The zero value of a `float64` field (`+0.0`). -/
def Float64.zero : Float64 := ⟨0⟩

/-- Floor of the base-2 logarithm, by halving (`fuel` bounds the number of halvings). -/
def log2Fuel : Nat → Nat → Nat
  | 0, _ => 0
  | fuel + 1, n => if 2 ≤ n then log2Fuel fuel (n / 2) + 1 else 0

/-- Go's conversion `float64(m)` of a non-negative integer, with the sign bit given:
round to nearest, ties to even; magnitudes beyond the range become infinity. -/
def Float64.ofMagnitude (sign : Nat) (m : Nat) : Float64 :=
  if m = 0 then ⟨0⟩
  else
    let e := log2Fuel m m
    let q :=
      if e ≤ 52 then m * 2 ^ (52 - e)
      else
        let sh := e - 52
        let q := m / 2 ^ sh
        let r := m % 2 ^ sh
        let half := 2 ^ (sh - 1)
        if half < r ∨ (r = half ∧ q % 2 = 1) then q + 1 else q
    -- a carry out of the 53-bit significand moves to the next exponent
    let e := if q = 2 ^ 53 then e + 1 else e
    let q := if q = 2 ^ 53 then 2 ^ 52 else q
    if 1024 ≤ e then ⟨sign * 2 ^ 63 + 2047 * 2 ^ 52⟩
    else ⟨sign * 2 ^ 63 + (e + 1023) * 2 ^ 52 + (q - 2 ^ 52)⟩

/-- Go's conversion `float64(i)` of an integer. -/
def Float64.ofInt (i : Int) : Float64 :=
  if i < 0 then Float64.ofMagnitude 1 i.natAbs else Float64.ofMagnitude 0 i.natAbs

/-! ## prometheus: descriptors and constant metrics -/

/-- The constant `namespace` of `main.go`. -/
def namespace_ : String := "puppet_last_run_exporter"

/-- Go's `strings.Join(parts, "_")`. -/
def joinUnderscore : List String → String
  | [] => ""
  | [a] => a
  | a :: rest => a ++ "_" ++ joinUnderscore rest

/-- The function `prometheus.BuildFQName`: the non-empty ones of namespace and subsystem,
then the name, joined by underscores; empty when the name is empty. -/
def BuildFQName (ns subsystem name : String) : String :=
  if name = "" then ""
  else if ns ≠ "" ∧ subsystem ≠ "" then joinUnderscore [ns, subsystem, name]
  else if ns ≠ "" then joinUnderscore [ns, name]
  else if subsystem ≠ "" then joinUnderscore [subsystem, name]
  else name

/-- One character of a metric name: `[a-zA-Z0-9_:]`, a digit not in first position. -/
def validMetricChar (first : Bool) (c : Char) : Bool :=
  ('a' ≤ c ∧ c ≤ 'z') || ('A' ≤ c ∧ c ≤ 'Z') || c = '_' || c = ':' ||
    (!first && ('0' ≤ c ∧ c ≤ '9'))

/-- The check `model.IsValidMetricName`: `^[a-zA-Z_:][a-zA-Z0-9_:]*$`. -/
def IsValidMetricName (s : String) : Bool :=
  match s.data with
  | [] => false
  | c :: cs => validMetricChar true c && cs.all (validMetricChar false)

/-- A `prometheus.Desc`: what `NewDesc` records of its four arguments, and whether the
descriptor is in error (`err != nil`). -/
structure Desc where
  fqName : String
  help : String
  variableLabels : List String
  constLabels : List (String × String)
  err : Bool
  deriving DecidableEq, Repr

/-- The function `prometheus.NewDesc`; `nil` labels are the empty lists. The descriptor is in
error when the name is not a valid metric name. -/
def NewDesc (fqName help : String) (variableLabels : List String)
    (constLabels : List (String × String)) : Desc :=
  { fqName := fqName, help := help, variableLabels := variableLabels,
    constLabels := constLabels, err := !IsValidMetricName fqName }

/-- The type `prometheus.ValueType`, as far as the program uses it. -/
inductive ValueType
  | CounterValue
  | GaugeValue
  | UntypedValue
  deriving DecidableEq, Repr

/-- A constant metric: the sample `MustNewConstMetric` builds. -/
structure Metric where
  desc : Desc
  valType : ValueType
  val : Float64
  labelValues : List String
  deriving DecidableEq, Repr

/-- The function `prometheus.MustNewConstMetric` on a `*Desc` (`none` is the nil pointer):
`none` stands for the panic, raised for a nil descriptor, a descriptor in error, or a number
of label values other than the number of variable labels. -/
def MustNewConstMetric (desc : Option Desc) (valueType : ValueType) (value : Float64)
    (labelValues : List String) : Option Metric :=
  match desc with
  | none => none
  | some d =>
    if d.err then none
    else if labelValues.length ≠ d.variableLabels.length then none
    else some { desc := d, valType := valueType, val := value, labelValues := labelValues }

/-! ## The exporter -/

/-- The struct `Exporter` (its mutex apart): twenty `*prometheus.Desc` fields. -/
structure Exporter where
  resourcesChanged : Option Desc
  resourcesCorrectiveChange : Option Desc
  resourcesFailed : Option Desc
  resourcesFailedRestart : Option Desc
  resourcesOutOfSync : Option Desc
  resourcesRestarted : Option Desc
  resourcesScheduled : Option Desc
  resourcesSkipped : Option Desc
  resourcesTotal : Option Desc
  timeCatalogApplication : Option Desc
  timeConfigRetrieval : Option Desc
  timeConvertCatalog : Option Desc
  timeExec : Option Desc
  timeFactGeneration : Option Desc
  timeFilebucket : Option Desc
  timeNodeRetrieval : Option Desc
  timePluginsync : Option Desc
  timeTransactionEvaluation : Option Desc
  timeTotal : Option Desc
  timeLastRun : Option Desc
  deriving DecidableEq, Repr

/-- The function `NewSummaryExporter`: nineteen fields are set, `timeExec` is left nil. -/
def NewSummaryExporter : Exporter :=
  { resourcesChanged := some (NewDesc (BuildFQName namespace_ "resources" "ResourcesChanged")
      "Number of changed resources" [] [])
    resourcesCorrectiveChange := some (NewDesc
      (BuildFQName namespace_ "resources" "ResourcesCorrectiveChange")
      "Number of corrective changes" [] [])
    resourcesFailed := some (NewDesc (BuildFQName namespace_ "" "ResourcesFailed")
      "Number of failed resources" [] [])
    resourcesFailedRestart := some (NewDesc (BuildFQName namespace_ "" "ResourcesFailedRestart")
      "Number of resources failed to restart" [] [])
    resourcesOutOfSync := some (NewDesc (BuildFQName namespace_ "" "ResourcesOutOfSync")
      "Number of resources out of sync" [] [])
    resourcesRestarted := some (NewDesc (BuildFQName namespace_ "" "ResourcesRestarted")
      "Number of restarted resources" [] [])
    resourcesScheduled := some (NewDesc (BuildFQName namespace_ "" "ResourcesScheduled")
      "Number of scheduled resources" [] [])
    resourcesSkipped := some (NewDesc (BuildFQName namespace_ "" "ResourcesSkipped")
      "Number of skipped resources" [] [])
    resourcesTotal := some (NewDesc (BuildFQName namespace_ "" "ResourcesTotal")
      "Total number of resources" [] [])
    timeCatalogApplication := some (NewDesc (BuildFQName namespace_ "" "TimeCatalogApplication")
      "Castalog application time" [] [])
    timeConfigRetrieval := some (NewDesc (BuildFQName namespace_ "" "TimeConfigRetrieval")
      "Castalog application time" [] [])
    timeConvertCatalog := some (NewDesc (BuildFQName namespace_ "" "TimeConvertCatalog")
      "Castalog conversion time" [] [])
    timeExec := none
    timeFactGeneration := some (NewDesc (BuildFQName namespace_ "" "TimeFactGeneration")
      "Fact generation time" [] [])
    timeFilebucket := some (NewDesc (BuildFQName namespace_ "" "TimeFileBucket")
      "Filebucket time" [] [])
    timeNodeRetrieval := some (NewDesc (BuildFQName namespace_ "" "TimeNodeRetrieval")
      "Node retrieval time" [] [])
    timePluginsync := some (NewDesc (BuildFQName namespace_ "" "TimePluginSync")
      "Plugin sync time" [] [])
    timeTransactionEvaluation := some (NewDesc
      (BuildFQName namespace_ "" "TimeTransactionEvaluation")
      "Transaction Evaluation time" [] [])
    timeTotal := some (NewDesc (BuildFQName namespace_ "" "TimeTotal")
      "Total time" [] [])
    timeLastRun := some (NewDesc (BuildFQName namespace_ "" "TimeLastRun")
      "Last puppet run" [] []) }

/-- The method `Exporter.Describe`: the pointers it sends on the channel, in order. -/
def Exporter.Describe (e : Exporter) : List (Option Desc) :=
  [ e.resourcesChanged,
    e.resourcesCorrectiveChange,
    e.resourcesFailed,
    e.resourcesFailedRestart,
    e.resourcesOutOfSync,
    e.resourcesRestarted,
    e.resourcesScheduled,
    e.resourcesSkipped,
    e.resourcesTotal,
    e.timeCatalogApplication,
    e.timeConfigRetrieval,
    e.timeFactGeneration,
    e.timeFilebucket,
    e.timeNodeRetrieval,
    e.timePluginsync,
    e.timeTransactionEvaluation,
    e.timeTotal,
    e.timeLastRun ]

/-! ## Struct tags and the document keys of the fields -/

/-- The double quote, the backslash and DEL, the characters the tag scan singles out. -/
def dquote : Char := Char.ofNat 34

def backslash : Char := Char.ofNat 92

def del : Char := Char.ofNat 127

/-- The inner loop of `reflect.StructTag.Lookup` that scans a quoted value, entered after
the opening quote: the text up to the closing quote (a backslash skips the character after
it) and what follows the closing quote; `none` when the value is not closed. -/
def scanQuoted : List Char → Option (List Char × List Char)
  | [] => none
  | c :: cs =>
    if c = dquote then some ([], cs)
    else if c = backslash then
      match cs with
      | [] => none
      | d :: ds => (scanQuoted ds).map (fun r => (c :: d :: r.1, r.2))
    else (scanQuoted cs).map (fun r => (c :: r.1, r.2))

/-- The call `strconv.Unquote` on a scanned value, for values without escape sequences (a
value with a backslash or a newline is given up; no tag of `main.go` has one). -/
def unquote (inner : List Char) : Option String :=
  if inner.any (fun c => c = backslash || c = Char.ofNat 10) then none else some (String.mk inner)

/-- The method `reflect.StructTag.Lookup`: the conventional tag format is a sequence of
`key:"value"` pairs separated by spaces. The scan stops, finding nothing, at the first
place that departs from it: an empty key, or a key not followed at once by a colon and a
double quote. -/
def tagLookup (key : String) : Nat → List Char → Option String
  | 0, _ => none
  | fuel + 1, tag =>
    -- skip leading space
    let tag := tag.dropWhile (fun c => c = ' ')
    if tag = [] then none
    else
      -- scan to colon; a space, a quote or a control character is a syntax error
      let name := tag.takeWhile (fun c => ' ' < c ∧ c ≠ ':' ∧ c ≠ dquote ∧ c ≠ del)
      match name, tag.drop name.length with
      | [], _ => none
      | _ :: _, colon :: quote :: after =>
        if colon = ':' ∧ quote = dquote then
          match scanQuoted after with
          | none => none
          | some (inner, rest) =>
            if key.data = name then unquote inner else tagLookup key fuel rest
        else none
      | _ :: _, _ => none

/-- The method `reflect.StructTag.Get`: the value found by `Lookup`, or the empty string. -/
def tagGet (tag key : String) : String :=
  (tagLookup key (tag.length + 1) tag.data).getD ""

/-- Go's `strings.ToLower` on an ASCII name. -/
def toLower (s : String) : String := String.mk (s.data.map Char.toLower)

/-- The key under which `yaml.v2` (`getStructInfo`) fills a struct field, from the field's
Go name and its tag as written in the source: the `yaml` value of the tag (the whole tag
when it has no colon) up to its first comma, and when that is empty the lower-cased field
name. `none` for a field skipped by the tag `-`. Flags after the comma are not
interpreted. -/
def yamlKey (fieldName tag : String) : Option String :=
  let t := tagGet tag "yaml"
  let t := if t = "" ∧ ¬ tag.data.contains ':' then tag else t
  if t = "-" then none
  else
    let t := String.mk (t.data.takeWhile (fun c => c ≠ ','))
    if t ≠ "" then some t else some (toLower fieldName)

/-! ## The document, as `yaml.v2` hands it to the decoder -/

/-- What `yaml.v2` resolves a scalar to (`resolve`): an integer stands for the Go types
`int`, `int64` and `uint64`. -/
inductive Resolved
  | null
  | bool (b : Bool)
  | int (i : Int)
  | float (f : Float64)
  | str (s : String)
  | binary (decoded : String)
  | timestamp
  deriving DecidableEq, Repr

/-- A node of the parsed document: a scalar with its text and what it resolves to, a sequence,
or a mapping with scalar keys, in document order (aliases and merges expanded in place). -/
inductive Node
  | scalar (value : String) (resolved : Resolved)
  | sequence (items : List Node)
  | mapping (entries : List (String × Node))

/-- What the parser of `yaml.v2` makes of the file's bytes: a syntax error, no document at
all (empty input), or the root node of the first document. -/
inductive YamlParse
  | syntaxError
  | empty
  | document (root : Node)

/-- Decoding a node into a `float64` (`decoder.scalar`, kinds `Float32`/`Float64`): null gives
the zero value, an integer is converted, a float is stored as it is; anything else is a type
error (`none`). -/
def unmarshalFloat64 : Node → Option Float64
  | .scalar _ .null => some Float64.zero
  | .scalar _ (.int i) => some (Float64.ofInt i)
  | .scalar _ (.float f) => some f
  | _ => none

/-- Decoding a node into a `string` (`decoder.scalar`, kind `String`): null gives the zero
value, a binary scalar its decoded bytes, any other scalar its text; a sequence or a mapping
is a type error (`none`). -/
def unmarshalString : Node → Option String
  | .scalar _ .null => some ""
  | .scalar _ (.binary decoded) => some decoded
  | .scalar value _ => some value
  | _ => none

/-- A field of a struct as the decoder sees it: the Go name, the tag as written in the
source, and the effect of decoding a node into the field (`none`: a type error). -/
structure Field (S : Type) where
  name : String
  tag : String
  store : Node → S → Option S

/-- The document key of a field. -/
def Field.key {S : Type} (f : Field S) : Option String := yamlKey f.name f.tag

/-- The method `decoder.mappingStruct` (not strict): the entries of the mapping in order; an
entry whose key is the key of a field is decoded into that field, any other entry is
ignored. A type error makes the whole decode fail. -/
def mappingStruct {S : Type} (fields : List (Field S)) : List (String × Node) → S → Option S
  | [], s => some s
  | (k, v) :: rest, s =>
    match fields.find? (fun f => f.key = some k) with
    | some f => (f.store v s).bind (mappingStruct fields rest)
    | none => mappingStruct fields rest s

/-- Decoding a node into a struct: null resets it to its zero value, a mapping is stored
field by field into the value already there, anything else is a type error. -/
def unmarshalStruct {S : Type} (fields : List (Field S)) (zero : S) : Node → S → Option S
  | .scalar _ .null, _ => some zero
  | .mapping entries, s => mappingStruct fields entries s
  | _, _ => none

/-- A field of type `float64`. -/
def float64Field {S : Type} (name tag : String) (set : Float64 → S → S) : Field S :=
  { name := name, tag := tag, store := fun n s => (unmarshalFloat64 n).map (fun v => set v s) }

/-- A field of type `string`. -/
def stringField {S : Type} (name tag : String) (set : String → S → S) : Field S :=
  { name := name, tag := tag, store := fun n s => (unmarshalString n).map (fun v => set v s) }

/-- A field of struct type. -/
def structField {S R : Type} (name tag : String) (fields : List (Field R)) (zero : R)
    (get : S → R) (set : R → S → S) : Field S :=
  { name := name, tag := tag,
    store := fun n s => (unmarshalStruct fields zero n (get s)).map (fun r => set r s) }

/-! ## The record `T` -/

/-- The anonymous struct type of the field `T.Version`. -/
structure TVersion where
  Config : String
  Puppet : String
  deriving DecidableEq, Repr

/-- The anonymous struct type of the field `T.Resources`. -/
structure TResources where
  Changed : Float64
  Corrective_change : Float64
  Failed : Float64
  Failed_to_restart : Float64
  Out_of_sync : Float64
  Restarted : Float64
  Scheduled : Float64
  Skipped : Float64
  Total : Float64
  deriving DecidableEq, Repr

/-- The anonymous struct type of the field `T.Time`. -/
structure TTime where
  Anchor : Float64
  Archive : Float64
  Catalog_application : Float64
  Config_retrieval : Float64
  Convert_catalog : Float64
  Exec : Float64
  Fact_generation : Float64
  File : Float64
  Filebucket : Float64
  Group : Float64
  Node_retrieval : Float64
  Package : Float64
  Plugin_sync : Float64
  Schedule : Float64
  Service : Float64
  Total : Float64
  Transaction_evaluation : Float64
  User : Float64
  Yumrepo : Float64
  Last_run : Float64
  deriving DecidableEq, Repr

/-- The anonymous struct type of the field `T.Changes`. -/
structure TChanges where
  Changes : Float64
  Total : Float64
  deriving DecidableEq, Repr

/-- The anonymous struct type of the field `T.Events`. -/
structure TEvents where
  Failure : Float64
  Success : Float64
  Total : Float64
  deriving DecidableEq, Repr

/-- The struct `T` the report is decoded into. -/
structure T where
  Version : TVersion
  Resources : TResources
  Time : TTime
  Changes : TChanges
  Events : TEvents
  deriving DecidableEq, Repr

/-- The zero value of `TVersion`. -/
def TVersion.zero : TVersion :=
  { Config := ""
    Puppet := "" }

/-- The zero value of `TResources`. -/
def TResources.zero : TResources :=
  { Changed := Float64.zero
    Corrective_change := Float64.zero
    Failed := Float64.zero
    Failed_to_restart := Float64.zero
    Out_of_sync := Float64.zero
    Restarted := Float64.zero
    Scheduled := Float64.zero
    Skipped := Float64.zero
    Total := Float64.zero }

/-- The zero value of `TTime`. -/
def TTime.zero : TTime :=
  { Anchor := Float64.zero
    Archive := Float64.zero
    Catalog_application := Float64.zero
    Config_retrieval := Float64.zero
    Convert_catalog := Float64.zero
    Exec := Float64.zero
    Fact_generation := Float64.zero
    File := Float64.zero
    Filebucket := Float64.zero
    Group := Float64.zero
    Node_retrieval := Float64.zero
    Package := Float64.zero
    Plugin_sync := Float64.zero
    Schedule := Float64.zero
    Service := Float64.zero
    Total := Float64.zero
    Transaction_evaluation := Float64.zero
    User := Float64.zero
    Yumrepo := Float64.zero
    Last_run := Float64.zero }

/-- The zero value of `TChanges`. -/
def TChanges.zero : TChanges :=
  { Changes := Float64.zero
    Total := Float64.zero }

/-- The zero value of `TEvents`. -/
def TEvents.zero : TEvents :=
  { Failure := Float64.zero
    Success := Float64.zero
    Total := Float64.zero }

/-- The zero value of `T`, the value of `var t T`. -/
def T.zero : T :=
  { Version := TVersion.zero
    Resources := TResources.zero
    Time := TTime.zero
    Changes := TChanges.zero
    Events := TEvents.zero }

/-- The fields of `T.Version`, in declaration order, each with its tag as written. -/
def TVersion.fields : List (Field TVersion) :=
  [ stringField "Config" "yaml: \"version_config\"" (fun v s => { s with Config := v }),
    stringField "Puppet" "yaml: \"version_puppet\"" (fun v s => { s with Puppet := v }) ]

/-- The fields of `T.Resources`, in declaration order, each with its tag as written. -/
def TResources.fields : List (Field TResources) :=
  [ float64Field "Changed" "yaml: \"resources_changed\"" (fun v s => { s with Changed := v }),
    float64Field "Corrective_change" "yaml: \"resouces_corrective_change\"" (fun v s => { s with Corrective_change := v }),
    float64Field "Failed" "" (fun v s => { s with Failed := v }),
    float64Field "Failed_to_restart" "" (fun v s => { s with Failed_to_restart := v }),
    float64Field "Out_of_sync" "" (fun v s => { s with Out_of_sync := v }),
    float64Field "Restarted" "" (fun v s => { s with Restarted := v }),
    float64Field "Scheduled" "" (fun v s => { s with Scheduled := v }),
    float64Field "Skipped" "" (fun v s => { s with Skipped := v }),
    float64Field "Total" "" (fun v s => { s with Total := v }) ]

/-- The fields of `T.Time`, in declaration order, each with its tag as written. -/
def TTime.fields : List (Field TTime) :=
  [ float64Field "Anchor" "yaml: \"timeAnchor\"" (fun v s => { s with Anchor := v }),
    float64Field "Archive" "yaml: \"timeArchive\"" (fun v s => { s with Archive := v }),
    float64Field "Catalog_application" "yaml: \"timeCatalogApplication\"" (fun v s => { s with Catalog_application := v }),
    float64Field "Config_retrieval" "yaml: \"timeConfigRetrieval\"" (fun v s => { s with Config_retrieval := v }),
    float64Field "Convert_catalog" "yaml: \"timeConverCatalog\"" (fun v s => { s with Convert_catalog := v }),
    float64Field "Exec" "yaml: \"timeExec\"" (fun v s => { s with Exec := v }),
    float64Field "Fact_generation" "yaml: \"timeFactGeneration\"" (fun v s => { s with Fact_generation := v }),
    float64Field "File" "yaml: \"timeFile\"" (fun v s => { s with File := v }),
    float64Field "Filebucket" "yaml: \"timeFileBucket\"" (fun v s => { s with Filebucket := v }),
    float64Field "Group" "yaml: \"timeGroup\"" (fun v s => { s with Group := v }),
    float64Field "Node_retrieval" "yaml: \"timeNodeRetrieval\"" (fun v s => { s with Node_retrieval := v }),
    float64Field "Package" "yaml: \"timePackage\"" (fun v s => { s with Package := v }),
    float64Field "Plugin_sync" "yaml: \"tomePluginSync\"" (fun v s => { s with Plugin_sync := v }),
    float64Field "Schedule" "yaml: \"timeSchedule\"" (fun v s => { s with Schedule := v }),
    float64Field "Service" "yaml: \"timeService\"" (fun v s => { s with Service := v }),
    float64Field "Total" "yaml: \"timeTotal\"" (fun v s => { s with Total := v }),
    float64Field "Transaction_evaluation" "yaml: \"timeTransactionEvaluation\"" (fun v s => { s with Transaction_evaluation := v }),
    float64Field "User" "yaml: \"timeUser\"" (fun v s => { s with User := v }),
    float64Field "Yumrepo" "yaml: \"timeYumrepo\"" (fun v s => { s with Yumrepo := v }),
    float64Field "Last_run" "yaml: \"timeLastRunEpoch\"" (fun v s => { s with Last_run := v }) ]

/-- The fields of `T.Changes`, in declaration order, each with its tag as written. -/
def TChanges.fields : List (Field TChanges) :=
  [ float64Field "Changes" "" (fun v s => { s with Changes := v }),
    float64Field "Total" "" (fun v s => { s with Total := v }) ]

/-- The fields of `T.Events`, in declaration order, each with its tag as written. -/
def TEvents.fields : List (Field TEvents) :=
  [ float64Field "Failure" "" (fun v s => { s with Failure := v }),
    float64Field "Success" "" (fun v s => { s with Success := v }),
    float64Field "Total" "" (fun v s => { s with Total := v }) ]

/-- The fields of `T`, in declaration order; none has a tag. -/
def T.fields : List (Field T) :=
  [ structField "Version" "" TVersion.fields TVersion.zero (fun t => t.Version)
      (fun v t => { t with Version := v }),
    structField "Resources" "" TResources.fields TResources.zero (fun t => t.Resources)
      (fun v t => { t with Resources := v }),
    structField "Time" "" TTime.fields TTime.zero (fun t => t.Time)
      (fun v t => { t with Time := v }),
    structField "Changes" "" TChanges.fields TChanges.zero (fun t => t.Changes)
      (fun v t => { t with Changes := v }),
    structField "Events" "" TEvents.fields TEvents.zero (fun t => t.Events)
      (fun v t => { t with Events := v }) ]

/-- The call `yaml.Unmarshal(dat, &t)`, on what the parser makes of `dat`: `none` stands for
a non-nil error (a syntax error or a type error). Empty input leaves `t` as it is. -/
def Unmarshal (dat : YamlParse) (t : T) : Option T :=
  match dat with
  | .syntaxError => none
  | .empty => some t
  | .document root => unmarshalStruct T.fields T.zero root t

/-! ## collect and Collect -/

/-- The result of `ioutil.ReadFile("./last_run_summary.yaml")`: an error, or the bytes read,
kept as what the YAML parser makes of them. -/
inductive ReadFile
  | failed (error : String)
  | content (dat : YamlParse)

/-- How a call of `collect` ends, with the metrics sent on the channel until then:
the process exits (`log.Fatal`), the call panics, or it returns an error value. -/
inductive Outcome
  | exited (sent : List Metric)
  | panicked (sent : List Metric)
  | returned (err : Option String) (sent : List Metric)
  deriving DecidableEq, Repr

/-- The send statements of `collect` run in order: each builds its metric and sends it; the
first `MustNewConstMetric` that panics ends the call, after the sends before it. When all are
through, `collect` returns nil. -/
def sendAll : List (Option Metric) → List Metric → Outcome
  | [], sent => .returned none sent
  | none :: _, sent => .panicked sent
  | some m :: rest, sent => sendAll rest (sent ++ [m])

/-- The metrics of the nineteen send statements of `collect`, lines 230 to 248. -/
def Exporter.metrics (e : Exporter) (t : T) : List (Option Metric) :=
  [ MustNewConstMetric e.resourcesChanged .GaugeValue t.Resources.Changed [],
    MustNewConstMetric e.resourcesCorrectiveChange .GaugeValue t.Resources.Corrective_change [],
    MustNewConstMetric e.resourcesFailed .GaugeValue t.Resources.Failed [],
    MustNewConstMetric e.resourcesFailedRestart .GaugeValue t.Resources.Failed_to_restart [],
    MustNewConstMetric e.resourcesOutOfSync .GaugeValue t.Resources.Out_of_sync [],
    MustNewConstMetric e.resourcesRestarted .GaugeValue t.Resources.Restarted [],
    MustNewConstMetric e.resourcesScheduled .GaugeValue t.Resources.Scheduled [],
    MustNewConstMetric e.resourcesSkipped .GaugeValue t.Resources.Skipped [],
    MustNewConstMetric e.resourcesTotal .GaugeValue t.Resources.Total [],
    MustNewConstMetric e.timeCatalogApplication .GaugeValue t.Time.Catalog_application [],
    MustNewConstMetric e.timeConfigRetrieval .GaugeValue t.Time.Config_retrieval [],
    MustNewConstMetric e.timeConvertCatalog .GaugeValue t.Time.Convert_catalog [],
    MustNewConstMetric e.timeFactGeneration .GaugeValue t.Time.Fact_generation [],
    MustNewConstMetric e.timeFilebucket .GaugeValue t.Time.Filebucket [],
    MustNewConstMetric e.timeNodeRetrieval .GaugeValue t.Time.Node_retrieval [],
    MustNewConstMetric e.timePluginsync .GaugeValue t.Time.Plugin_sync [],
    MustNewConstMetric e.timeTransactionEvaluation .GaugeValue t.Time.Transaction_evaluation [],
    MustNewConstMetric e.timeTotal .GaugeValue t.Time.Total [],
    MustNewConstMetric e.timeLastRun .CounterValue t.Time.Last_run [] ]

/-- The method `Exporter.collect`: a failed read ends the process, a failed decode panics,
both before anything is sent; otherwise the nineteen metrics are sent and nil is returned. -/
def Exporter.collect (e : Exporter) (file : ReadFile) : Outcome :=
  match file with
  | .failed _ => .exited []
  | .content dat =>
    match Unmarshal dat T.zero with
    | none => .panicked []
    | some t => sendAll (e.metrics t) []

/-- The method `Exporter.Collect` (the mutex apart): how the call ends, with the metrics sent,
and the lines it logs; it logs when `collect` returns a non-nil error. -/
def Exporter.Collect (e : Exporter) (file : ReadFile) : Outcome × List String :=
  match e.collect file with
  | .returned (some err) sent =>
    (.returned none sent, ["Error scraping puppet_last_run_report: " ++ err])
  | o => (o, [])

/-! ## Reading the outcome of a call -/

/-- The metrics sent on the channel in the course of a call, however it ends. -/
def Outcome.sent : Outcome → List Metric
  | .exited sent => sent
  | .panicked sent => sent
  | .returned _ sent => sent

/-- The fields of an `Exporter`, in declaration order. -/
def Exporter.fields (e : Exporter) : List (Option Desc) :=
  [ e.resourcesChanged, e.resourcesCorrectiveChange, e.resourcesFailed,
    e.resourcesFailedRestart, e.resourcesOutOfSync, e.resourcesRestarted,
    e.resourcesScheduled, e.resourcesSkipped, e.resourcesTotal,
    e.timeCatalogApplication, e.timeConfigRetrieval, e.timeConvertCatalog, e.timeExec,
    e.timeFactGeneration, e.timeFilebucket, e.timeNodeRetrieval, e.timePluginsync,
    e.timeTransactionEvaluation, e.timeTotal, e.timeLastRun ]

/-- The descriptors an `Exporter` holds: its fields that are not nil. -/
def Exporter.descs (e : Exporter) : List Desc := e.fields.filterMap id

/-- The document key of the field with the given Go name, among the fields of a struct. -/
def keyOf {S : Type} (fields : List (Field S)) (name : String) : Option String :=
  (fields.find? (fun f => f.name = name)).bind Field.key

/-- One send statement of `collect`, read as a row: the descriptor field it uses, the
document keys of the section and of the field of `T` it reads, and the value it reads. -/
structure Exposed where
  desc : Exporter → Option Desc
  sectionKey : Option String
  fieldKey : Option String
  value : T → Float64

/-- The nineteen send statements of `collect`, in order. -/
def exposed : List Exposed :=
  [ ⟨fun e => e.resourcesChanged, keyOf T.fields "Resources",
      keyOf TResources.fields "Changed", fun t => t.Resources.Changed⟩,
    ⟨fun e => e.resourcesCorrectiveChange, keyOf T.fields "Resources",
      keyOf TResources.fields "Corrective_change", fun t => t.Resources.Corrective_change⟩,
    ⟨fun e => e.resourcesFailed, keyOf T.fields "Resources",
      keyOf TResources.fields "Failed", fun t => t.Resources.Failed⟩,
    ⟨fun e => e.resourcesFailedRestart, keyOf T.fields "Resources",
      keyOf TResources.fields "Failed_to_restart", fun t => t.Resources.Failed_to_restart⟩,
    ⟨fun e => e.resourcesOutOfSync, keyOf T.fields "Resources",
      keyOf TResources.fields "Out_of_sync", fun t => t.Resources.Out_of_sync⟩,
    ⟨fun e => e.resourcesRestarted, keyOf T.fields "Resources",
      keyOf TResources.fields "Restarted", fun t => t.Resources.Restarted⟩,
    ⟨fun e => e.resourcesScheduled, keyOf T.fields "Resources",
      keyOf TResources.fields "Scheduled", fun t => t.Resources.Scheduled⟩,
    ⟨fun e => e.resourcesSkipped, keyOf T.fields "Resources",
      keyOf TResources.fields "Skipped", fun t => t.Resources.Skipped⟩,
    ⟨fun e => e.resourcesTotal, keyOf T.fields "Resources",
      keyOf TResources.fields "Total", fun t => t.Resources.Total⟩,
    ⟨fun e => e.timeCatalogApplication, keyOf T.fields "Time",
      keyOf TTime.fields "Catalog_application", fun t => t.Time.Catalog_application⟩,
    ⟨fun e => e.timeConfigRetrieval, keyOf T.fields "Time",
      keyOf TTime.fields "Config_retrieval", fun t => t.Time.Config_retrieval⟩,
    ⟨fun e => e.timeConvertCatalog, keyOf T.fields "Time",
      keyOf TTime.fields "Convert_catalog", fun t => t.Time.Convert_catalog⟩,
    ⟨fun e => e.timeFactGeneration, keyOf T.fields "Time",
      keyOf TTime.fields "Fact_generation", fun t => t.Time.Fact_generation⟩,
    ⟨fun e => e.timeFilebucket, keyOf T.fields "Time",
      keyOf TTime.fields "Filebucket", fun t => t.Time.Filebucket⟩,
    ⟨fun e => e.timeNodeRetrieval, keyOf T.fields "Time",
      keyOf TTime.fields "Node_retrieval", fun t => t.Time.Node_retrieval⟩,
    ⟨fun e => e.timePluginsync, keyOf T.fields "Time",
      keyOf TTime.fields "Plugin_sync", fun t => t.Time.Plugin_sync⟩,
    ⟨fun e => e.timeTransactionEvaluation, keyOf T.fields "Time",
      keyOf TTime.fields "Transaction_evaluation", fun t => t.Time.Transaction_evaluation⟩,
    ⟨fun e => e.timeTotal, keyOf T.fields "Time",
      keyOf TTime.fields "Total", fun t => t.Time.Total⟩,
    ⟨fun e => e.timeLastRun, keyOf T.fields "Time",
      keyOf TTime.fields "Last_run", fun t => t.Time.Last_run⟩ ]

/-! ## Documents that fit the record -/

/-- A node a `float64` field takes: a number or null. -/
def Node.isNumber : Node → Bool
  | .scalar _ .null => true
  | .scalar _ (.int _) => true
  | .scalar _ (.float _) => true
  | _ => false

/-- A node a `string` field takes: any scalar. -/
def Node.isScalar : Node → Bool
  | .scalar _ _ => true
  | _ => false

/-- A node a struct takes: null, or a mapping all of whose entries fit. -/
def fitsStruct (fits : String → Node → Bool) : Node → Bool
  | .scalar _ .null => true
  | .mapping entries => entries.all (fun kv => fits kv.1 kv.2)
  | _ => false

/-- An entry fits a struct with the given fields when its key is the key of no field, or its
value satisfies `ok`. -/
def fitsFields {S : Type} (fields : List (Field S)) (ok : Node → Bool) (k : String)
    (v : Node) : Bool :=
  !fields.any (fun f => f.key = some k) || ok v

/-- An entry of the root mapping fits `T`: under the key of a section, a node that section
takes; under any other key, anything. -/
def fitsT (k : String) (v : Node) : Bool :=
  if some k = keyOf T.fields "Version" then fitsStruct (fitsFields TVersion.fields Node.isScalar) v
  else if some k = keyOf T.fields "Resources" then
    fitsStruct (fitsFields TResources.fields Node.isNumber) v
  else if some k = keyOf T.fields "Time" then fitsStruct (fitsFields TTime.fields Node.isNumber) v
  else if some k = keyOf T.fields "Changes" then
    fitsStruct (fitsFields TChanges.fields Node.isNumber) v
  else if some k = keyOf T.fields "Events" then
    fitsStruct (fitsFields TEvents.fields Node.isNumber) v
  else true

/-- A well-formed report: the file parses, and what stands under the keys of the record has
the shape of the field it goes to. Keys the record does not know, and keys that are missing,
are of no concern. -/
def WellFormed : YamlParse → Bool
  | .syntaxError => false
  | .empty => true
  | .document root => fitsStruct fitsT root

/-- The key of an exposed field is absent from the document: no section under the field's
section key is a mapping with an entry under the field's key. -/
def Absent (dat : YamlParse) (x : Exposed) : Bool :=
  match dat with
  | .document (.mapping entries) =>
    entries.all (fun kv => some kv.1 ≠ x.sectionKey ||
      match kv.2 with
      | .mapping es => es.all (fun e => some e.1 ≠ x.fieldKey)
      | _ => true)
  | _ => true

/-- The report of the round-trip scenario: `resources.total = 42`, `resources.failed = 0`,
`time.timeLastRunEpoch = 1600000000`. -/
def scenarioReport : YamlParse :=
  .document (.mapping
    [ ("resources", .mapping
        [ ("total", .scalar "42" (.int 42)), ("failed", .scalar "0" (.int 0)) ]),
      ("time", .mapping
        [ ("timeLastRunEpoch", .scalar "1600000000" (.int 1600000000)) ]) ])

/-- The same report with the last-run time under the key `last_run`. -/
def lastRunReport : YamlParse :=
  .document (.mapping
    [ ("resources", .mapping
        [ ("total", .scalar "42" (.int 42)), ("failed", .scalar "0" (.int 0)) ]),
      ("time", .mapping
        [ ("last_run", .scalar "1600000000" (.int 1600000000)) ]) ])

/-- The value the sample of a descriptor carries among the metrics sent, if there is one. -/
def sampleOf (sent : List Metric) (d : Option Desc) : Option Float64 :=
  (sent.find? (fun m => some m.desc = d)).map Metric.val

/-- The record `lastRunReport` decodes to. -/
def lastRunRecord : T :=
  { T.zero with
    Resources := { TResources.zero with Total := Float64.ofInt 42 }
    Time := { TTime.zero with Last_run := Float64.ofInt 1600000000 } }

/-- The record `scenarioReport` decodes to: its key `timeLastRunEpoch` fills no field. -/
def scenarioRecord : T :=
  { T.zero with Resources := { TResources.zero with Total := Float64.ofInt 42 } }

/-- A report whose `time` section is a sequence: the file parses, the decode fails. -/
def malformedReport : YamlParse :=
  .document (.mapping [("time", .sequence [.scalar "1" (.int 1)])])

/-! ## Properties of field lists used in the proofs -/

/-- Every field of the list decodes any node satisfying `ok`. -/
def Takes {S : Type} (fields : List (Field S)) (ok : Node → Bool) : Prop :=
  ∀ f ∈ fields, ∀ v s, ok v = true → (f.store v s).isSome

/-- Decoding into a field whose key is not `κ` leaves the reading `g` as it was. -/
def Frames {S : Type} (fields : List (Field S)) (κ : Option String) (g : S → Float64) : Prop :=
  ∀ f ∈ fields, f.key ≠ κ → ∀ v s s', f.store v s = some s' → g s' = g s

/-- The reading `get` of `T` is the struct field of `T` under the key `σ`. -/
def IsSection {R : Type} (σ : String) (sfields : List (Field R)) (szero : R) (get : T → R) :
    Prop :=
  (∀ f ∈ T.fields, f.key = some σ → ∀ v t t', f.store v t = some t' →
      ∃ r, unmarshalStruct sfields szero v (get t) = some r ∧ get t' = r) ∧
  (∀ f ∈ T.fields, f.key ≠ some σ → ∀ v t t', f.store v t = some t' → get t' = get t) ∧
  get T.zero = szero

/-! ## Lemmas on sending -/

theorem sendAll_map_some (ms : List Metric) (sent : List Metric) :
    sendAll (ms.map some) sent = .returned none (sent ++ ms) := by
  induction ms generalizing sent with
  | nil => simp [sendAll]
  | cons m rest ih => simp [sendAll, ih]

theorem sendAll_returned (ms : List (Option Metric)) (acc : List Metric) (err : Option String)
    (sent : List Metric) (h : sendAll ms acc = .returned err sent) :
    err = none ∧ sent.length = acc.length + ms.length := by
  induction ms generalizing acc with
  | nil =>
    simp only [sendAll, Outcome.returned.injEq] at h
    obtain ⟨rfl, rfl⟩ := h
    simp
  | cons m rest ih =>
    cases m with
    | none => simp [sendAll] at h
    | some m =>
      simp only [sendAll] at h
      obtain ⟨h1, h2⟩ := ih (acc ++ [m]) h
      refine ⟨h1, ?_⟩
      rw [h2]
      simp
      omega

/-- Every send statement of `collect` on the exporter of `NewSummaryExporter` builds its
metric: none of the nineteen `MustNewConstMetric` calls panics. -/
theorem metrics_all_some (t : T) :
    NewSummaryExporter.metrics t = ((NewSummaryExporter.metrics t).filterMap id).map some := by
  rfl

theorem collect_decoded (dat : YamlParse) (t : T) (h : Unmarshal dat T.zero = some t) :
    NewSummaryExporter.collect (.content dat) =
      .returned none ((NewSummaryExporter.metrics t).filterMap id) := by
  simp only [Exporter.collect, h]
  rw [metrics_all_some, sendAll_map_some]
  rfl

theorem sent_descs (t : T) :
    ((NewSummaryExporter.metrics t).filterMap id).map Metric.desc = NewSummaryExporter.descs := by
  rfl

theorem sent_kinds (t : T) :
    ((NewSummaryExporter.metrics t).filterMap id).map (fun m => (some m.desc, m.valType)) =
      (exposed.map (fun x => x.desc NewSummaryExporter)).zip
        (List.replicate 18 ValueType.GaugeValue ++ [ValueType.CounterValue]) := by
  rfl

theorem sampleOf_exposed (t : T) (x : Exposed) (hx : x ∈ exposed) :
    sampleOf ((NewSummaryExporter.metrics t).filterMap id) (x.desc NewSummaryExporter) =
      some (x.value t) := by
  simp only [exposed, List.mem_cons, List.mem_singleton, List.mem_nil_iff, or_false] at hx
  rcases hx with rfl | rfl | rfl | rfl | rfl | rfl | rfl | rfl | rfl | rfl | rfl | rfl | rfl |
    rfl | rfl | rfl | rfl | rfl | rfl <;> rfl

/-! ## Lemmas on decoding -/

theorem find_key_spec {S : Type} (fields : List (Field S)) (k : String) (f : Field S)
    (h : fields.find? (fun f => f.key = some k) = some f) : f ∈ fields ∧ f.key = some k := by
  refine ⟨List.mem_of_find?_eq_some h, ?_⟩
  have := List.find?_some h
  simpa using this

theorem mappingStruct_cons_some {S : Type} (fields : List (Field S)) (k : String) (v : Node)
    (rest : List (String × Node)) (s : S) (f : Field S)
    (h : fields.find? (fun f => f.key = some k) = some f) :
    mappingStruct fields ((k, v) :: rest) s = (f.store v s).bind (mappingStruct fields rest) := by
  simp only [mappingStruct, h]

theorem mappingStruct_cons_none {S : Type} (fields : List (Field S)) (k : String) (v : Node)
    (rest : List (String × Node)) (s : S)
    (h : fields.find? (fun f => f.key = some k) = none) :
    mappingStruct fields ((k, v) :: rest) s = mappingStruct fields rest s := by
  simp only [mappingStruct, h]

theorem mappingStruct_inv {S : Type} (fields : List (Field S)) (P : S → Prop)
    (Q : String → Node → Prop)
    (hstep : ∀ f ∈ fields, ∀ k v, f.key = some k → Q k v →
      ∀ s s', P s → f.store v s = some s' → P s') :
    ∀ (entries : List (String × Node)) (s s' : S), (∀ e ∈ entries, Q e.1 e.2) → P s →
      mappingStruct fields entries s = some s' → P s' := by
  intro entries
  induction entries with
  | nil =>
    intro s s' _ hP h
    simp [mappingStruct] at h
    exact h ▸ hP
  | cons e rest ih =>
    obtain ⟨k, v⟩ := e
    intro s s' hQ hP h
    have hQ0 : Q k v := hQ (k, v) (List.mem_cons_self _ _)
    have hQr : ∀ e ∈ rest, Q e.1 e.2 := fun e he => hQ e (List.mem_cons_of_mem _ he)
    cases hf : fields.find? (fun f => f.key = some k) with
    | none =>
      rw [mappingStruct_cons_none fields k v rest s hf] at h
      exact ih s s' hQr hP h
    | some f =>
      rw [mappingStruct_cons_some fields k v rest s f hf] at h
      obtain ⟨hmem, hkey⟩ := find_key_spec fields k f hf
      cases hs : f.store v s with
      | none => rw [hs] at h; simp at h
      | some s1 =>
        rw [hs] at h
        exact ih s1 s' hQr (hstep f hmem k v hkey hQ0 s s1 hP hs) h

theorem mappingStruct_isSome {S : Type} (fields : List (Field S)) (Q : String → Node → Prop)
    (hstep : ∀ f ∈ fields, ∀ k v, f.key = some k → Q k v → ∀ s, (f.store v s).isSome) :
    ∀ (entries : List (String × Node)) (s : S), (∀ e ∈ entries, Q e.1 e.2) →
      (mappingStruct fields entries s).isSome := by
  intro entries
  induction entries with
  | nil => intro s _; simp [mappingStruct]
  | cons e rest ih =>
    obtain ⟨k, v⟩ := e
    intro s hQ
    have hQ0 : Q k v := hQ (k, v) (List.mem_cons_self _ _)
    have hQr : ∀ e ∈ rest, Q e.1 e.2 := fun e he => hQ e (List.mem_cons_of_mem _ he)
    cases hf : fields.find? (fun f => f.key = some k) with
    | none =>
      rw [mappingStruct_cons_none fields k v rest s hf]
      exact ih s hQr
    | some f =>
      rw [mappingStruct_cons_some fields k v rest s f hf]
      obtain ⟨hmem, hkey⟩ := find_key_spec fields k f hf
      have h1 := hstep f hmem k v hkey hQ0 s
      cases hs : f.store v s with
      | none => rw [hs] at h1; simp at h1
      | some s1 => simpa using ih s1 hQr

theorem unmarshalFloat64_isSome (v : Node) (h : v.isNumber = true) :
    (unmarshalFloat64 v).isSome := by
  cases v with
  | scalar value r => cases r <;> simp_all [unmarshalFloat64, Node.isNumber]
  | sequence _ => simp [Node.isNumber] at h
  | mapping _ => simp [Node.isNumber] at h

theorem unmarshalString_isSome (v : Node) (h : v.isScalar = true) :
    (unmarshalString v).isSome := by
  cases v with
  | scalar value r => cases r <;> simp_all [unmarshalString, Node.isScalar]
  | sequence _ => simp [Node.isScalar] at h
  | mapping _ => simp [Node.isScalar] at h

theorem float64Field_takes {S : Type} (name tag : String) (set : Float64 → S → S) (v : Node)
    (s : S) (h : v.isNumber = true) : ((float64Field name tag set).store v s).isSome := by
  have := unmarshalFloat64_isSome v h
  simp [float64Field, this]

theorem stringField_takes {S : Type} (name tag : String) (set : String → S → S) (v : Node)
    (s : S) (h : v.isScalar = true) : ((stringField name tag set).store v s).isSome := by
  have := unmarshalString_isSome v h
  simp [stringField, this]

theorem takes_resources : Takes TResources.fields Node.isNumber := by
  intro f hf v s h
  simp only [TResources.fields, List.mem_cons, List.mem_singleton, List.mem_nil_iff, or_false] at hf
  rcases hf with rfl | rfl | rfl | rfl | rfl | rfl | rfl | rfl | rfl <;>
    exact float64Field_takes _ _ _ v s h

theorem unmarshalStruct_isSome {S : Type} (fields : List (Field S)) (ok : Node → Bool)
    (zero : S) (ht : Takes fields ok) (v : Node) (s : S)
    (h : fitsStruct (fitsFields fields ok) v = true) :
    (unmarshalStruct fields zero v s).isSome := by
  cases v with
  | scalar value r => cases r <;> simp_all [unmarshalStruct, fitsStruct]
  | sequence _ => simp [fitsStruct] at h
  | mapping entries =>
    simp only [unmarshalStruct]
    apply mappingStruct_isSome fields (fun k v => fitsFields fields ok k v = true)
    · intro f hf k v hk hfit s
      apply ht f hf v s
      simp only [fitsFields, Bool.or_eq_true, Bool.not_eq_true', List.any_eq_false] at hfit
      rcases hfit with h1 | h1
      · have := h1 f hf
        simp [hk] at this
      · exact h1
    · intro e he
      simp only [fitsStruct, List.all_eq_true] at h
      exact h e he


theorem takes_time : Takes TTime.fields Node.isNumber := by
  intro f hf v s h
  simp only [TTime.fields, List.mem_cons, List.mem_singleton, List.mem_nil_iff, or_false] at hf
  rcases hf with rfl | rfl | rfl | rfl | rfl | rfl | rfl | rfl | rfl | rfl | rfl | rfl | rfl |
    rfl | rfl | rfl | rfl | rfl | rfl | rfl <;>
    exact float64Field_takes _ _ _ v s h

theorem takes_changes : Takes TChanges.fields Node.isNumber := by
  intro f hf v s h
  simp only [TChanges.fields, List.mem_cons, List.mem_singleton, List.mem_nil_iff, or_false] at hf
  rcases hf with rfl | rfl <;> exact float64Field_takes _ _ _ v s h

theorem takes_events : Takes TEvents.fields Node.isNumber := by
  intro f hf v s h
  simp only [TEvents.fields, List.mem_cons, List.mem_singleton, List.mem_nil_iff, or_false] at hf
  rcases hf with rfl | rfl | rfl <;> exact float64Field_takes _ _ _ v s h

theorem takes_version : Takes TVersion.fields Node.isScalar := by
  intro f hf v s h
  simp only [TVersion.fields, List.mem_cons, List.mem_singleton, List.mem_nil_iff, or_false] at hf
  rcases hf with rfl | rfl <;> exact stringField_takes _ _ _ v s h

theorem structField_store_isSome {S R : Type} (name tag : String) (fields : List (Field R))
    (zero : R) (get : S → R) (set : R → S → S) (v : Node) (s : S)
    (h : (unmarshalStruct fields zero v (get s)).isSome) :
    ((structField name tag fields zero get set).store v s).isSome := by
  simpa [structField] using h

theorem section_keys :
    keyOf T.fields "Version" = some "version" ∧ keyOf T.fields "Resources" = some "resources" ∧
    keyOf T.fields "Time" = some "time" ∧ keyOf T.fields "Changes" = some "changes" ∧
    keyOf T.fields "Events" = some "events" := by decide

theorem fitsT_version (v : Node) (h : fitsT "version" v = true) :
    fitsStruct (fitsFields TVersion.fields Node.isScalar) v = true := by
  obtain ⟨h1, -, -, -, -⟩ := section_keys
  simpa [fitsT, h1] using h

theorem fitsT_resources (v : Node) (h : fitsT "resources" v = true) :
    fitsStruct (fitsFields TResources.fields Node.isNumber) v = true := by
  obtain ⟨h1, h2, -, -, -⟩ := section_keys
  simpa [fitsT, h1, h2] using h

theorem fitsT_time (v : Node) (h : fitsT "time" v = true) :
    fitsStruct (fitsFields TTime.fields Node.isNumber) v = true := by
  obtain ⟨h1, h2, h3, -, -⟩ := section_keys
  simpa [fitsT, h1, h2, h3] using h

theorem fitsT_changes (v : Node) (h : fitsT "changes" v = true) :
    fitsStruct (fitsFields TChanges.fields Node.isNumber) v = true := by
  obtain ⟨h1, h2, h3, h4, -⟩ := section_keys
  simpa [fitsT, h1, h2, h3, h4] using h

theorem fitsT_events (v : Node) (h : fitsT "events" v = true) :
    fitsStruct (fitsFields TEvents.fields Node.isNumber) v = true := by
  obtain ⟨h1, h2, h3, h4, h5⟩ := section_keys
  simpa [fitsT, h1, h2, h3, h4, h5] using h

/-- The document keys under which the nineteen exposed fields are filled, section and field,
in the order of the send statements: the lower-cased Go names, no tag of `main.go` taking
effect. -/
theorem exposed_keys :
    exposed.map (fun x => (x.sectionKey, x.fieldKey)) =
      [ (some "resources", some "changed"), (some "resources", some "corrective_change"),
        (some "resources", some "failed"), (some "resources", some "failed_to_restart"),
        (some "resources", some "out_of_sync"), (some "resources", some "restarted"),
        (some "resources", some "scheduled"), (some "resources", some "skipped"),
        (some "resources", some "total"), (some "time", some "catalog_application"),
        (some "time", some "config_retrieval"), (some "time", some "convert_catalog"),
        (some "time", some "fact_generation"), (some "time", some "filebucket"),
        (some "time", some "node_retrieval"), (some "time", some "plugin_sync"),
        (some "time", some "transaction_evaluation"), (some "time", some "total"),
        (some "time", some "last_run") ] := by
  decide

theorem key_eq {S : Type} (f : Field S) (k k' : String) (h : f.key = some k)
    (h' : f.key = some k') : k = k' := by
  rw [h] at h'
  exact Option.some.inj h'

theorem unmarshal_isSome (dat : YamlParse) (h : WellFormed dat = true) :
    (Unmarshal dat T.zero).isSome := by
  cases dat with
  | syntaxError => simp [WellFormed] at h
  | empty => simp [Unmarshal]
  | document root =>
    simp only [WellFormed] at h
    simp only [Unmarshal]
    cases root with
    | scalar value r => cases r <;> simp_all [unmarshalStruct, fitsStruct]
    | sequence _ => simp [fitsStruct] at h
    | mapping entries =>
      simp only [unmarshalStruct]
      apply mappingStruct_isSome T.fields (fun k v => fitsT k v = true)
      · intro f hf k v hk hfit s
        simp only [T.fields, List.mem_cons, List.mem_singleton, List.mem_nil_iff, or_false] at hf
        rcases hf with rfl | rfl | rfl | rfl | rfl
        · obtain rfl := key_eq _ k "version" hk (by decide)
          exact structField_store_isSome _ _ _ _ _ _ v s
            (unmarshalStruct_isSome _ _ _ takes_version v _ (fitsT_version v hfit))
        · obtain rfl := key_eq _ k "resources" hk (by decide)
          exact structField_store_isSome _ _ _ _ _ _ v s
            (unmarshalStruct_isSome _ _ _ takes_resources v _ (fitsT_resources v hfit))
        · obtain rfl := key_eq _ k "time" hk (by decide)
          exact structField_store_isSome _ _ _ _ _ _ v s
            (unmarshalStruct_isSome _ _ _ takes_time v _ (fitsT_time v hfit))
        · obtain rfl := key_eq _ k "changes" hk (by decide)
          exact structField_store_isSome _ _ _ _ _ _ v s
            (unmarshalStruct_isSome _ _ _ takes_changes v _ (fitsT_changes v hfit))
        · obtain rfl := key_eq _ k "events" hk (by decide)
          exact structField_store_isSome _ _ _ _ _ _ v s
            (unmarshalStruct_isSome _ _ _ takes_events v _ (fitsT_events v hfit))
      · intro e he
        simp only [fitsStruct, List.all_eq_true] at h
        exact h e he


theorem float64Field_frame {S : Type} (name tag : String) (set : Float64 → S → S)
    (g : S → Float64) (hg : ∀ v s, g (set v s) = g s) (v : Node) (s s' : S)
    (h : (float64Field name tag set).store v s = some s') : g s' = g s := by
  simp only [float64Field, Option.map_eq_some'] at h
  obtain ⟨a, -, rfl⟩ := h
  exact hg a s

theorem structField_store_eq {S R : Type} (name tag : String) (fields : List (Field R))
    (zero : R) (get : S → R) (set : R → S → S) (v : Node) (s s' : S)
    (h : (structField name tag fields zero get set).store v s = some s') :
    ∃ r, unmarshalStruct fields zero v (get s) = some r ∧ s' = set r s := by
  simp only [structField, Option.map_eq_some'] at h
  obtain ⟨r, hr, rfl⟩ := h
  exact ⟨r, hr, rfl⟩

theorem isSection_resources :
    IsSection "resources" TResources.fields TResources.zero (fun t => t.Resources) := by
  refine ⟨?_, ?_, rfl⟩
  · intro f hf hk v t t' h
    simp only [T.fields, List.mem_cons, List.mem_singleton, List.mem_nil_iff, or_false] at hf
    rcases hf with rfl | rfl | rfl | rfl | rfl
    · exact absurd hk (by decide)
    · obtain ⟨r, hr, rfl⟩ := structField_store_eq _ _ _ _ _ _ v t t' h
      exact ⟨r, hr, rfl⟩
    · exact absurd hk (by decide)
    · exact absurd hk (by decide)
    · exact absurd hk (by decide)
  · intro f hf hk v t t' h
    simp only [T.fields, List.mem_cons, List.mem_singleton, List.mem_nil_iff, or_false] at hf
    rcases hf with rfl | rfl | rfl | rfl | rfl
    · obtain ⟨r, -, rfl⟩ := structField_store_eq _ _ _ _ _ _ v t t' h
      rfl
    · exact absurd (by decide) hk
    · obtain ⟨r, -, rfl⟩ := structField_store_eq _ _ _ _ _ _ v t t' h
      rfl
    · obtain ⟨r, -, rfl⟩ := structField_store_eq _ _ _ _ _ _ v t t' h
      rfl
    · obtain ⟨r, -, rfl⟩ := structField_store_eq _ _ _ _ _ _ v t t' h
      rfl

theorem isSection_time :
    IsSection "time" TTime.fields TTime.zero (fun t => t.Time) := by
  refine ⟨?_, ?_, rfl⟩
  · intro f hf hk v t t' h
    simp only [T.fields, List.mem_cons, List.mem_singleton, List.mem_nil_iff, or_false] at hf
    rcases hf with rfl | rfl | rfl | rfl | rfl
    · exact absurd hk (by decide)
    · exact absurd hk (by decide)
    · obtain ⟨r, hr, rfl⟩ := structField_store_eq _ _ _ _ _ _ v t t' h
      exact ⟨r, hr, rfl⟩
    · exact absurd hk (by decide)
    · exact absurd hk (by decide)
  · intro f hf hk v t t' h
    simp only [T.fields, List.mem_cons, List.mem_singleton, List.mem_nil_iff, or_false] at hf
    rcases hf with rfl | rfl | rfl | rfl | rfl
    · obtain ⟨r, -, rfl⟩ := structField_store_eq _ _ _ _ _ _ v t t' h
      rfl
    · obtain ⟨r, -, rfl⟩ := structField_store_eq _ _ _ _ _ _ v t t' h
      rfl
    · exact absurd (by decide) hk
    · obtain ⟨r, -, rfl⟩ := structField_store_eq _ _ _ _ _ _ v t t' h
      rfl
    · obtain ⟨r, -, rfl⟩ := structField_store_eq _ _ _ _ _ _ v t t' h
      rfl

theorem section_zero_of_absent {R : Type} (sfields : List (Field R)) (szero : R)
    (κ : Option String) (g : R → Float64) (hz : g szero = Float64.zero)
    (hfr : Frames sfields κ g) (v : Node) (r r' : R) (hr : g r = Float64.zero)
    (habs : (match v with
      | .mapping es => es.all (fun e => some e.1 ≠ κ)
      | _ => true) = true)
    (h : unmarshalStruct sfields szero v r = some r') : g r' = Float64.zero := by
  cases v with
  | scalar value res =>
    cases res <;> simp only [unmarshalStruct, Option.some.injEq, reduceCtorEq] at h
    exact h ▸ hz
  | sequence _ => simp [unmarshalStruct] at h
  | mapping es =>
    simp only [unmarshalStruct] at h
    simp only [List.all_eq_true, decide_eq_true_eq] at habs
    refine mappingStruct_inv sfields (fun r => g r = Float64.zero) (fun k _ => some k ≠ κ)
      ?_ es r r' (fun e he => habs e he) hr h
    intro f hf k v hk hQ s s' hP hs
    have hne : f.key ≠ κ := by rw [hk]; exact hQ
    rw [hfr f hf hne v s s' hs]
    exact hP

theorem value_zero_of_absent {R : Type} (σ : String) (sfields : List (Field R)) (szero : R)
    (get : T → R) (hsec : IsSection σ sfields szero get) (x : Exposed) (g : R → Float64)
    (hσ : x.sectionKey = some σ) (hval : ∀ t, x.value t = g (get t))
    (hz : g szero = Float64.zero) (hfr : Frames sfields x.fieldKey g)
    (dat : YamlParse) (t : T) (hdec : Unmarshal dat T.zero = some t)
    (habs : Absent dat x = true) : x.value t = Float64.zero := by
  obtain ⟨hs1, hs2, hs3⟩ := hsec
  have h0 : g (get T.zero) = Float64.zero := by rw [hs3]; exact hz
  rw [hval]
  cases dat with
  | syntaxError => simp [Unmarshal] at hdec
  | empty =>
    simp only [Unmarshal, Option.some.injEq] at hdec
    exact hdec ▸ h0
  | document root =>
    simp only [Unmarshal] at hdec
    cases root with
    | scalar value res =>
      cases res <;> simp only [unmarshalStruct, Option.some.injEq, reduceCtorEq] at hdec
      exact hdec ▸ h0
    | sequence _ => simp [unmarshalStruct] at hdec
    | mapping entries =>
      simp only [unmarshalStruct] at hdec
      simp only [Absent, List.all_eq_true, Bool.or_eq_true, decide_eq_true_eq] at habs
      refine mappingStruct_inv T.fields (fun t => g (get t) = Float64.zero)
        (fun k v => some k ≠ x.sectionKey ∨ (match v with
          | .mapping es => es.all (fun e => some e.1 ≠ x.fieldKey)
          | _ => true) = true) ?_ entries T.zero t (fun e he => habs e he) h0 hdec
      intro f hf k v hk hQ s s' hP hs
      by_cases hkσ : k = σ
      · subst hkσ
        obtain ⟨r, hr, hget⟩ := hs1 f hf hk v s s' hs
        rcases hQ with hQ | hQ
        · exact absurd hσ.symm hQ
        · rw [hget]
          exact section_zero_of_absent sfields szero x.fieldKey g hz hfr v (get s) r hP hQ hr
      · have hne : f.key ≠ some σ := by
          rw [hk]
          intro hc
          exact hkσ (Option.some.inj hc)
        rw [hs2 f hf hne v s s' hs]
        exact hP


theorem frames_resources :
    ∀ p ∈ ([ (keyOf TResources.fields "Changed", fun r => r.Changed),
      (keyOf TResources.fields "Corrective_change", fun r => r.Corrective_change),
      (keyOf TResources.fields "Failed", fun r => r.Failed),
      (keyOf TResources.fields "Failed_to_restart", fun r => r.Failed_to_restart),
      (keyOf TResources.fields "Out_of_sync", fun r => r.Out_of_sync),
      (keyOf TResources.fields "Restarted", fun r => r.Restarted),
      (keyOf TResources.fields "Scheduled", fun r => r.Scheduled),
      (keyOf TResources.fields "Skipped", fun r => r.Skipped),
      (keyOf TResources.fields "Total", fun r => r.Total) ] :
      List (Option String × (TResources → Float64))), Frames TResources.fields p.1 p.2 := by
  intro p hp f hf hk v s s' h
  simp only [List.mem_cons, List.mem_singleton, List.mem_nil_iff, or_false] at hp
  simp only [TResources.fields, List.mem_cons, List.mem_singleton, List.mem_nil_iff, or_false] at hf
  rcases hp with rfl | rfl | rfl | rfl | rfl | rfl | rfl | rfl | rfl <;>
  rcases hf with rfl | rfl | rfl | rfl | rfl | rfl | rfl | rfl | rfl <;>
  first
  | exact float64Field_frame _ _ _ _ (by intro _ _; rfl) v s s' h
  | exact absurd (by decide) hk

theorem frames_time :
    ∀ p ∈ ([ (keyOf TTime.fields "Catalog_application", fun r => r.Catalog_application),
      (keyOf TTime.fields "Config_retrieval", fun r => r.Config_retrieval),
      (keyOf TTime.fields "Convert_catalog", fun r => r.Convert_catalog),
      (keyOf TTime.fields "Fact_generation", fun r => r.Fact_generation),
      (keyOf TTime.fields "Filebucket", fun r => r.Filebucket),
      (keyOf TTime.fields "Node_retrieval", fun r => r.Node_retrieval),
      (keyOf TTime.fields "Plugin_sync", fun r => r.Plugin_sync),
      (keyOf TTime.fields "Transaction_evaluation", fun r => r.Transaction_evaluation),
      (keyOf TTime.fields "Total", fun r => r.Total),
      (keyOf TTime.fields "Last_run", fun r => r.Last_run) ] :
      List (Option String × (TTime → Float64))), Frames TTime.fields p.1 p.2 := by
  intro p hp f hf hk v s s' h
  simp only [List.mem_cons, List.mem_singleton, List.mem_nil_iff, or_false] at hp
  simp only [TTime.fields, List.mem_cons, List.mem_singleton, List.mem_nil_iff, or_false] at hf
  rcases hp with rfl | rfl | rfl | rfl | rfl | rfl | rfl | rfl | rfl | rfl <;>
  rcases hf with rfl | rfl | rfl | rfl | rfl | rfl | rfl | rfl | rfl | rfl | rfl | rfl | rfl | rfl | rfl | rfl | rfl | rfl | rfl | rfl <;>
  first
  | exact float64Field_frame _ _ _ _ (by intro _ _; rfl) v s s' h
  | exact absurd (by decide) hk

theorem exposed_zero_of_absent (x : Exposed) (hx : x ∈ exposed) (dat : YamlParse) (t : T)
    (hdec : Unmarshal dat T.zero = some t) (habs : Absent dat x = true) :
    x.value t = Float64.zero := by
  simp only [exposed, List.mem_cons, List.mem_singleton, List.mem_nil_iff, or_false] at hx
  rcases hx with rfl | rfl | rfl | rfl | rfl | rfl | rfl | rfl | rfl | rfl | rfl | rfl | rfl |
    rfl | rfl | rfl | rfl | rfl | rfl
  · exact value_zero_of_absent "resources" _ _ _ isSection_resources _ (fun r => r.Changed)
      (by decide) (fun _ => rfl) rfl (frames_resources (_, _) (by simp)) dat t hdec habs
  · exact value_zero_of_absent "resources" _ _ _ isSection_resources _ (fun r => r.Corrective_change)
      (by decide) (fun _ => rfl) rfl (frames_resources (_, _) (by simp)) dat t hdec habs
  · exact value_zero_of_absent "resources" _ _ _ isSection_resources _ (fun r => r.Failed)
      (by decide) (fun _ => rfl) rfl (frames_resources (_, _) (by simp)) dat t hdec habs
  · exact value_zero_of_absent "resources" _ _ _ isSection_resources _ (fun r => r.Failed_to_restart)
      (by decide) (fun _ => rfl) rfl (frames_resources (_, _) (by simp)) dat t hdec habs
  · exact value_zero_of_absent "resources" _ _ _ isSection_resources _ (fun r => r.Out_of_sync)
      (by decide) (fun _ => rfl) rfl (frames_resources (_, _) (by simp)) dat t hdec habs
  · exact value_zero_of_absent "resources" _ _ _ isSection_resources _ (fun r => r.Restarted)
      (by decide) (fun _ => rfl) rfl (frames_resources (_, _) (by simp)) dat t hdec habs
  · exact value_zero_of_absent "resources" _ _ _ isSection_resources _ (fun r => r.Scheduled)
      (by decide) (fun _ => rfl) rfl (frames_resources (_, _) (by simp)) dat t hdec habs
  · exact value_zero_of_absent "resources" _ _ _ isSection_resources _ (fun r => r.Skipped)
      (by decide) (fun _ => rfl) rfl (frames_resources (_, _) (by simp)) dat t hdec habs
  · exact value_zero_of_absent "resources" _ _ _ isSection_resources _ (fun r => r.Total)
      (by decide) (fun _ => rfl) rfl (frames_resources (_, _) (by simp)) dat t hdec habs
  · exact value_zero_of_absent "time" _ _ _ isSection_time _ (fun r => r.Catalog_application)
      (by decide) (fun _ => rfl) rfl (frames_time (_, _) (by simp)) dat t hdec habs
  · exact value_zero_of_absent "time" _ _ _ isSection_time _ (fun r => r.Config_retrieval)
      (by decide) (fun _ => rfl) rfl (frames_time (_, _) (by simp)) dat t hdec habs
  · exact value_zero_of_absent "time" _ _ _ isSection_time _ (fun r => r.Convert_catalog)
      (by decide) (fun _ => rfl) rfl (frames_time (_, _) (by simp)) dat t hdec habs
  · exact value_zero_of_absent "time" _ _ _ isSection_time _ (fun r => r.Fact_generation)
      (by decide) (fun _ => rfl) rfl (frames_time (_, _) (by simp)) dat t hdec habs
  · exact value_zero_of_absent "time" _ _ _ isSection_time _ (fun r => r.Filebucket)
      (by decide) (fun _ => rfl) rfl (frames_time (_, _) (by simp)) dat t hdec habs
  · exact value_zero_of_absent "time" _ _ _ isSection_time _ (fun r => r.Node_retrieval)
      (by decide) (fun _ => rfl) rfl (frames_time (_, _) (by simp)) dat t hdec habs
  · exact value_zero_of_absent "time" _ _ _ isSection_time _ (fun r => r.Plugin_sync)
      (by decide) (fun _ => rfl) rfl (frames_time (_, _) (by simp)) dat t hdec habs
  · exact value_zero_of_absent "time" _ _ _ isSection_time _ (fun r => r.Transaction_evaluation)
      (by decide) (fun _ => rfl) rfl (frames_time (_, _) (by simp)) dat t hdec habs
  · exact value_zero_of_absent "time" _ _ _ isSection_time _ (fun r => r.Total)
      (by decide) (fun _ => rfl) rfl (frames_time (_, _) (by simp)) dat t hdec habs
  · exact value_zero_of_absent "time" _ _ _ isSection_time _ (fun r => r.Last_run)
      (by decide) (fun _ => rfl) rfl (frames_time (_, _) (by simp)) dat t hdec habs

/-! ## The claims -/

/-- C1: for every record `t` a successful decode yields, `collect` on the exporter of
`NewSummaryExporter` returns nil after sending exactly 19 samples, in the order of the send
statements, on 19 pairwise distinct descriptors; each sample carries the descriptor of the
named exporter field and, unchanged, the named field of `t`. -/
theorem collect_emits_decoded_fields (dat : YamlParse) (t : T)
    (h : Unmarshal dat T.zero = some t) :
    ∃ sent, NewSummaryExporter.collect (.content dat) = .returned none sent ∧
      sent.length = 19 ∧ (sent.map Metric.desc).Nodup ∧
      sent.map (fun m => (some m.desc, m.val)) =
        [ (NewSummaryExporter.resourcesChanged, t.Resources.Changed),
          (NewSummaryExporter.resourcesCorrectiveChange, t.Resources.Corrective_change),
          (NewSummaryExporter.resourcesFailed, t.Resources.Failed),
          (NewSummaryExporter.resourcesFailedRestart, t.Resources.Failed_to_restart),
          (NewSummaryExporter.resourcesOutOfSync, t.Resources.Out_of_sync),
          (NewSummaryExporter.resourcesRestarted, t.Resources.Restarted),
          (NewSummaryExporter.resourcesScheduled, t.Resources.Scheduled),
          (NewSummaryExporter.resourcesSkipped, t.Resources.Skipped),
          (NewSummaryExporter.resourcesTotal, t.Resources.Total),
          (NewSummaryExporter.timeCatalogApplication, t.Time.Catalog_application),
          (NewSummaryExporter.timeConfigRetrieval, t.Time.Config_retrieval),
          (NewSummaryExporter.timeConvertCatalog, t.Time.Convert_catalog),
          (NewSummaryExporter.timeFactGeneration, t.Time.Fact_generation),
          (NewSummaryExporter.timeFilebucket, t.Time.Filebucket),
          (NewSummaryExporter.timeNodeRetrieval, t.Time.Node_retrieval),
          (NewSummaryExporter.timePluginsync, t.Time.Plugin_sync),
          (NewSummaryExporter.timeTransactionEvaluation, t.Time.Transaction_evaluation),
          (NewSummaryExporter.timeTotal, t.Time.Total),
          (NewSummaryExporter.timeLastRun, t.Time.Last_run) ] := by
  refine ⟨_, collect_decoded dat t h, rfl, ?_, rfl⟩
  rw [sent_descs]
  decide

/-- C1 at the report `lastRunReport`, which decodes to `lastRunRecord`. -/
theorem collect_emits_decoded_fields_witness :
    Unmarshal lastRunReport T.zero = some lastRunRecord ∧
    ∃ sent, NewSummaryExporter.collect (.content lastRunReport) = .returned none sent ∧
      sent.length = 19 ∧ (sent.map Metric.desc).Nodup ∧
      sent.map (fun m => (some m.desc, m.val)) =
        [ (NewSummaryExporter.resourcesChanged, lastRunRecord.Resources.Changed),
          (NewSummaryExporter.resourcesCorrectiveChange, lastRunRecord.Resources.Corrective_change),
          (NewSummaryExporter.resourcesFailed, lastRunRecord.Resources.Failed),
          (NewSummaryExporter.resourcesFailedRestart, lastRunRecord.Resources.Failed_to_restart),
          (NewSummaryExporter.resourcesOutOfSync, lastRunRecord.Resources.Out_of_sync),
          (NewSummaryExporter.resourcesRestarted, lastRunRecord.Resources.Restarted),
          (NewSummaryExporter.resourcesScheduled, lastRunRecord.Resources.Scheduled),
          (NewSummaryExporter.resourcesSkipped, lastRunRecord.Resources.Skipped),
          (NewSummaryExporter.resourcesTotal, lastRunRecord.Resources.Total),
          (NewSummaryExporter.timeCatalogApplication, lastRunRecord.Time.Catalog_application),
          (NewSummaryExporter.timeConfigRetrieval, lastRunRecord.Time.Config_retrieval),
          (NewSummaryExporter.timeConvertCatalog, lastRunRecord.Time.Convert_catalog),
          (NewSummaryExporter.timeFactGeneration, lastRunRecord.Time.Fact_generation),
          (NewSummaryExporter.timeFilebucket, lastRunRecord.Time.Filebucket),
          (NewSummaryExporter.timeNodeRetrieval, lastRunRecord.Time.Node_retrieval),
          (NewSummaryExporter.timePluginsync, lastRunRecord.Time.Plugin_sync),
          (NewSummaryExporter.timeTransactionEvaluation, lastRunRecord.Time.Transaction_evaluation),
          (NewSummaryExporter.timeTotal, lastRunRecord.Time.Total),
          (NewSummaryExporter.timeLastRun, lastRunRecord.Time.Last_run) ] :=
  ⟨by decide, collect_emits_decoded_fields lastRunReport lastRunRecord (by decide)⟩

/-- C2 (the code departs from it): `Describe` on the exporter of `NewSummaryExporter` sends 18
descriptors, not 19: all of them distinct, non-nil fields of the exporter, but the field
`timeConvertCatalog`, which `NewSummaryExporter` sets and `collect` uses, is not among them. -/
theorem describe_yields_eighteen :
    NewSummaryExporter.Describe.length = 18 ∧
    NewSummaryExporter.Describe.Nodup ∧
    (∀ d ∈ NewSummaryExporter.Describe, d ≠ none ∧ d ∈ NewSummaryExporter.fields) ∧
    NewSummaryExporter.timeConvertCatalog ≠ none ∧
    NewSummaryExporter.timeConvertCatalog ∉ NewSummaryExporter.Describe := by
  decide

/-- C3 (the code departs from it): for every successfully decoded report, every descriptor
`Describe` yields carries exactly one of the samples `collect` sends, but the sample of the
field `timeConvertCatalog` is sent on a descriptor `Describe` does not yield. -/
theorem collect_sends_undescribed (dat : YamlParse) (t : T)
    (h : Unmarshal dat T.zero = some t) :
    ∃ sent, NewSummaryExporter.collect (.content dat) = .returned none sent ∧
      (∀ d ∈ NewSummaryExporter.Describe, (sent.filter (fun m => some m.desc = d)).length = 1) ∧
      ∃ m ∈ sent, some m.desc = NewSummaryExporter.timeConvertCatalog ∧
        m.val = t.Time.Convert_catalog ∧ some m.desc ∉ NewSummaryExporter.Describe := by
  refine ⟨_, collect_decoded dat t h, ?_, ?_⟩
  · have hd : ∀ d ∈ NewSummaryExporter.Describe,
        (NewSummaryExporter.descs.filter (fun d' => some d' = d)).length = 1 := by decide
    intro d hmem
    have h1 := hd d hmem
    rw [← sent_descs t, List.filter_map, List.length_map] at h1
    exact h1
  · have hs := sampleOf_exposed t ⟨fun e => e.timeConvertCatalog, keyOf T.fields "Time",
      keyOf TTime.fields "Convert_catalog", fun t => t.Time.Convert_catalog⟩ (by simp [exposed])
    simp only [sampleOf, Option.map_eq_some'] at hs
    obtain ⟨m, hm, hv⟩ := hs
    refine ⟨m, List.mem_of_find?_eq_some hm, ?_, hv, ?_⟩
    · simpa using List.find?_some hm
    · have := List.find?_some hm
      simp only [decide_eq_true_eq] at this
      rw [this]
      decide

/-- C3 at the empty report. -/
theorem collect_sends_undescribed_witness :
    Unmarshal .empty T.zero = some T.zero ∧
    ∃ sent, NewSummaryExporter.collect (.content .empty) = .returned none sent ∧
      (∀ d ∈ NewSummaryExporter.Describe, (sent.filter (fun m => some m.desc = d)).length = 1) ∧
      ∃ m ∈ sent, some m.desc = NewSummaryExporter.timeConvertCatalog ∧
        m.val = T.zero.Time.Convert_catalog ∧ some m.desc ∉ NewSummaryExporter.Describe :=
  ⟨rfl, collect_sends_undescribed .empty T.zero rfl⟩

/-- C4: for every successfully decoded report the samples `collect` sends are tagged, in
order, eighteen times gauge and then once counter, whatever the report holds; a sample is
tagged counter exactly when its descriptor is the field `timeLastRun`. -/
theorem collect_value_kinds (dat : YamlParse) (t : T) (h : Unmarshal dat T.zero = some t) :
    ∃ sent, NewSummaryExporter.collect (.content dat) = .returned none sent ∧
      sent.map Metric.valType =
        List.replicate 18 ValueType.GaugeValue ++ [ValueType.CounterValue] ∧
      (∀ m ∈ sent, some m.desc ≠ NewSummaryExporter.timeLastRun →
        m.valType = ValueType.GaugeValue) ∧
      (∀ m ∈ sent, some m.desc = NewSummaryExporter.timeLastRun →
        m.valType = ValueType.CounterValue) ∧
      ∃ m ∈ sent, some m.desc = NewSummaryExporter.timeLastRun := by
  have hk := sent_kinds t
  have hall : ∀ p ∈ (exposed.map (fun x => x.desc NewSummaryExporter)).zip
      (List.replicate 18 ValueType.GaugeValue ++ [ValueType.CounterValue]),
      (p.1 ≠ NewSummaryExporter.timeLastRun → p.2 = ValueType.GaugeValue) ∧
      (p.1 = NewSummaryExporter.timeLastRun → p.2 = ValueType.CounterValue) := by decide
  have hmem : ∀ m ∈ (NewSummaryExporter.metrics t).filterMap id,
      (some m.desc ≠ NewSummaryExporter.timeLastRun → m.valType = ValueType.GaugeValue) ∧
      (some m.desc = NewSummaryExporter.timeLastRun → m.valType = ValueType.CounterValue) := by
    intro m hm
    have h1 : (some m.desc, m.valType) ∈
        ((NewSummaryExporter.metrics t).filterMap id).map (fun m => (some m.desc, m.valType)) :=
      List.mem_map_of_mem _ hm
    rw [hk] at h1
    exact hall _ h1
  refine ⟨_, collect_decoded dat t h, rfl, fun m hm => (hmem m hm).1,
    fun m hm => (hmem m hm).2, ?_⟩
  have hs := sampleOf_exposed t ⟨fun e => e.timeLastRun, keyOf T.fields "Time",
    keyOf TTime.fields "Last_run", fun t => t.Time.Last_run⟩ (by simp [exposed])
  simp only [sampleOf, Option.map_eq_some'] at hs
  obtain ⟨m, hm, -⟩ := hs
  exact ⟨m, List.mem_of_find?_eq_some hm, by simpa using List.find?_some hm⟩

/-- C4 at the report of the round-trip scenario. -/
theorem collect_value_kinds_witness :
    Unmarshal scenarioReport T.zero = some scenarioRecord ∧
    ∃ sent, NewSummaryExporter.collect (.content scenarioReport) = .returned none sent ∧
      sent.map Metric.valType =
        List.replicate 18 ValueType.GaugeValue ++ [ValueType.CounterValue] ∧
      (∀ m ∈ sent, some m.desc ≠ NewSummaryExporter.timeLastRun →
        m.valType = ValueType.GaugeValue) ∧
      (∀ m ∈ sent, some m.desc = NewSummaryExporter.timeLastRun →
        m.valType = ValueType.CounterValue) ∧
      ∃ m ∈ sent, some m.desc = NewSummaryExporter.timeLastRun :=
  ⟨by decide, collect_value_kinds scenarioReport scenarioRecord (by decide)⟩

/-- C5: for every well-formed report and every exposed field whose key (the key the decoder
derives for it) is absent from the report, with its whole section or within the section,
decoding succeeds, `collect` returns nil, and the sample sent on the field's descriptor has
the value 0. The empty report yields 19 samples that are all 0. -/
theorem missing_field_is_zero (dat : YamlParse) (x : Exposed) (hx : x ∈ exposed)
    (hwf : WellFormed dat = true) (habs : Absent dat x = true) :
    (∃ t sent, Unmarshal dat T.zero = some t ∧
      NewSummaryExporter.collect (.content dat) = .returned none sent ∧
      sent.length = 19 ∧ x.value t = Float64.zero ∧
      sampleOf sent (x.desc NewSummaryExporter) = some Float64.zero) ∧
    ∃ sent, NewSummaryExporter.collect (.content YamlParse.empty) = .returned none sent ∧
      sent.length = 19 ∧ ∀ m ∈ sent, m.val = Float64.zero := by
  constructor
  · have hsome := unmarshal_isSome dat hwf
    obtain ⟨t, ht⟩ := Option.isSome_iff_exists.mp hsome
    have hz := exposed_zero_of_absent x hx dat t ht habs
    refine ⟨t, _, ht, collect_decoded dat t ht, rfl, hz, ?_⟩
    rw [sampleOf_exposed t x hx, hz]
  · exact ⟨_, collect_decoded .empty T.zero rfl, rfl, by decide⟩

/-- C5 at the report of the round-trip scenario and the last send statement: the report has
no key `last_run` in its `time` section. -/
theorem missing_field_is_zero_witness :
    WellFormed scenarioReport = true ∧
    Absent scenarioReport (exposed.get ⟨18, by decide⟩) = true ∧
    (∃ t sent, Unmarshal scenarioReport T.zero = some t ∧
      NewSummaryExporter.collect (.content scenarioReport) = .returned none sent ∧
      sent.length = 19 ∧ (exposed.get ⟨18, by decide⟩).value t = Float64.zero ∧
      sampleOf sent ((exposed.get ⟨18, by decide⟩).desc NewSummaryExporter) =
        some Float64.zero) ∧
    ∃ sent, NewSummaryExporter.collect (.content YamlParse.empty) = .returned none sent ∧
      sent.length = 19 ∧ ∀ m ∈ sent, m.val = Float64.zero :=
  ⟨by decide, by decide,
    missing_field_is_zero scenarioReport (exposed.get ⟨18, by decide⟩) (List.get_mem _ _ _)
      (by decide) (by decide)⟩

/-- C6 (the code departs from it): on the report of the round-trip scenario `collect` sends
the resources-total sample with value 42 and the resources-failed sample with value 0, but
the last-run sample with value 0, not 1600000000. The tag of `Last_run` is written with a
blank after `yaml:`, so it yields no `yaml` value and the field is filled from the key
`last_run`, the lower-cased field name; written without the blank, the tag would make the key
`timeLastRunEpoch`. With the time under `last_run` the sample has the value 1600000000. -/
theorem scenario_last_run_is_zero :
    tagGet "yaml: \"timeLastRunEpoch\"" "yaml" = "" ∧
    keyOf TTime.fields "Last_run" = some "last_run" ∧
    yamlKey "Last_run" "yaml:\"timeLastRunEpoch\"" = some "timeLastRunEpoch" ∧
    sampleOf (NewSummaryExporter.collect (.content scenarioReport)).sent
      NewSummaryExporter.resourcesTotal = some (Float64.ofInt 42) ∧
    sampleOf (NewSummaryExporter.collect (.content scenarioReport)).sent
      NewSummaryExporter.resourcesFailed = some (Float64.ofInt 0) ∧
    sampleOf (NewSummaryExporter.collect (.content scenarioReport)).sent
      NewSummaryExporter.timeLastRun = some Float64.zero ∧
    Float64.ofInt 1600000000 ≠ Float64.zero ∧
    sampleOf (NewSummaryExporter.collect (.content lastRunReport)).sent
      NewSummaryExporter.timeLastRun = some (Float64.ofInt 1600000000) := by
  decide

/-- C7 as stated fails: the name of the descriptor `resourcesTotal` is not
`puppet_last_run_exporter_resources_ResourcesTotal`. -/
theorem resourcesTotal_name_has_no_subsystem :
    NewSummaryExporter.resourcesTotal.map Desc.fqName ≠
      some "puppet_last_run_exporter_resources_ResourcesTotal" := by
  decide

/-- C7, amended: `NewSummaryExporter` builds `resourcesTotal` with an empty subsystem, so its
fully-qualified name joins the namespace and the name only and is
`puppet_last_run_exporter_ResourcesTotal`; this is the descriptor on which `collect` sends
the resources-total value (42 in the round-trip scenario). -/
theorem resourcesTotal_name :
    BuildFQName namespace_ "" "ResourcesTotal" = "puppet_last_run_exporter_ResourcesTotal" ∧
    NewSummaryExporter.resourcesTotal.map Desc.fqName =
      some "puppet_last_run_exporter_ResourcesTotal" ∧
    ((NewSummaryExporter.collect (.content scenarioReport)).sent.filter
        (fun m => m.val = Float64.ofInt 42)).map (fun m => (some m.desc, m.desc.fqName)) =
      [(NewSummaryExporter.resourcesTotal, "puppet_last_run_exporter_ResourcesTotal")] := by
  decide

/-- C8: on any exporter, a failed read ends the process and a failed decode panics, in both
cases with nothing sent; whenever `collect` returns, the error it returns is nil, all 19
samples were sent and the file was read and decoded, so `Collect` never logs. On the exporter
of `NewSummaryExporter` a call sends either nothing or all 19 samples. -/
theorem collect_failure_is_abrupt (e : Exporter) (file : ReadFile) :
    (∀ error, file = .failed error → e.collect file = .exited []) ∧
    (∀ dat, file = .content dat → Unmarshal dat T.zero = none →
      e.collect file = .panicked []) ∧
    (∀ err sent, e.collect file = .returned err sent →
      err = none ∧ sent.length = 19 ∧
      ∃ dat t, file = .content dat ∧ Unmarshal dat T.zero = some t) ∧
    (e.Collect file).2 = [] ∧
    ((NewSummaryExporter.collect file).sent = [] ∨
      (NewSummaryExporter.collect file).sent.length = 19) := by
  have hret : ∀ err sent, e.collect file = .returned err sent →
      err = none ∧ sent.length = 19 ∧
      ∃ dat t, file = .content dat ∧ Unmarshal dat T.zero = some t := by
    intro err sent h
    cases file with
    | failed error => simp [Exporter.collect] at h
    | content dat =>
      cases hd : Unmarshal dat T.zero with
      | none => simp [Exporter.collect, hd] at h
      | some t =>
        simp only [Exporter.collect, hd] at h
        obtain ⟨h1, h2⟩ := sendAll_returned _ _ _ _ h
        exact ⟨h1, by simpa [Exporter.metrics] using h2, dat, t, rfl, hd⟩
  refine ⟨?_, ?_, hret, ?_, ?_⟩
  · rintro error rfl
    rfl
  · rintro dat rfl hd
    simp [Exporter.collect, hd]
  · cases hc : e.collect file with
    | exited sent => simp [Exporter.Collect, hc]
    | panicked sent => simp [Exporter.Collect, hc]
    | returned err sent =>
      obtain ⟨rfl, -⟩ := hret err sent hc
      simp [Exporter.Collect, hc]
  · cases file with
    | failed error => left; rfl
    | content dat =>
      cases hd : Unmarshal dat T.zero with
      | none => left; simp [Exporter.collect, hd, Outcome.sent]
      | some t => right; rw [collect_decoded dat t hd]; rfl

/-- C8 at a missing file, at a file that does not parse and at a report that does not decode,
and at the empty report, where `collect` returns. -/
theorem collect_failure_is_abrupt_witness :
    NewSummaryExporter.collect (.failed "no such file or directory") = .exited [] ∧
    NewSummaryExporter.collect (.content .syntaxError) = .panicked [] ∧
    (Unmarshal malformedReport T.zero = none ∧
      NewSummaryExporter.collect (.content malformedReport) = .panicked []) ∧
    (NewSummaryExporter.collect (.content .empty) =
        .returned none (NewSummaryExporter.collect (.content .empty)).sent ∧
      (NewSummaryExporter.collect (.content .empty)).sent.length = 19) :=
  ⟨(collect_failure_is_abrupt NewSummaryExporter (.failed "no such file or directory")).1 _ rfl,
    (collect_failure_is_abrupt NewSummaryExporter (.content .syntaxError)).2.1 _ rfl rfl,
    ⟨by decide,
      (collect_failure_is_abrupt NewSummaryExporter (.content malformedReport)).2.1 _ rfl
        (by decide)⟩,
    ⟨by decide,
      ((collect_failure_is_abrupt NewSummaryExporter (.content .empty)).2.2.1 none
        (NewSummaryExporter.collect (.content .empty)).sent (by decide)).2.1⟩⟩

/-- C10: `NewSummaryExporter` sets 19 descriptors; their fully-qualified names, each built by
`BuildFQName` from the namespace, the subsystem and the name, are the 19 names listed, which
are pairwise distinct; every descriptor has no variable labels and no constant labels (and
none is in error). -/
theorem descriptor_names_distinct :
    NewSummaryExporter.descs.length = 19 ∧
    NewSummaryExporter.descs.map Desc.fqName =
      [ BuildFQName namespace_ "resources" "ResourcesChanged",
        BuildFQName namespace_ "resources" "ResourcesCorrectiveChange",
        BuildFQName namespace_ "" "ResourcesFailed",
        BuildFQName namespace_ "" "ResourcesFailedRestart",
        BuildFQName namespace_ "" "ResourcesOutOfSync",
        BuildFQName namespace_ "" "ResourcesRestarted",
        BuildFQName namespace_ "" "ResourcesScheduled",
        BuildFQName namespace_ "" "ResourcesSkipped",
        BuildFQName namespace_ "" "ResourcesTotal",
        BuildFQName namespace_ "" "TimeCatalogApplication",
        BuildFQName namespace_ "" "TimeConfigRetrieval",
        BuildFQName namespace_ "" "TimeConvertCatalog",
        BuildFQName namespace_ "" "TimeFactGeneration",
        BuildFQName namespace_ "" "TimeFileBucket",
        BuildFQName namespace_ "" "TimeNodeRetrieval",
        BuildFQName namespace_ "" "TimePluginSync",
        BuildFQName namespace_ "" "TimeTransactionEvaluation",
        BuildFQName namespace_ "" "TimeTotal",
        BuildFQName namespace_ "" "TimeLastRun" ] ∧
    NewSummaryExporter.descs.map Desc.fqName =
      [ "puppet_last_run_exporter_resources_ResourcesChanged",
        "puppet_last_run_exporter_resources_ResourcesCorrectiveChange",
        "puppet_last_run_exporter_ResourcesFailed",
        "puppet_last_run_exporter_ResourcesFailedRestart",
        "puppet_last_run_exporter_ResourcesOutOfSync",
        "puppet_last_run_exporter_ResourcesRestarted",
        "puppet_last_run_exporter_ResourcesScheduled",
        "puppet_last_run_exporter_ResourcesSkipped",
        "puppet_last_run_exporter_ResourcesTotal",
        "puppet_last_run_exporter_TimeCatalogApplication",
        "puppet_last_run_exporter_TimeConfigRetrieval",
        "puppet_last_run_exporter_TimeConvertCatalog",
        "puppet_last_run_exporter_TimeFactGeneration",
        "puppet_last_run_exporter_TimeFileBucket",
        "puppet_last_run_exporter_TimeNodeRetrieval",
        "puppet_last_run_exporter_TimePluginSync",
        "puppet_last_run_exporter_TimeTransactionEvaluation",
        "puppet_last_run_exporter_TimeTotal",
        "puppet_last_run_exporter_TimeLastRun" ] ∧
    (NewSummaryExporter.descs.map Desc.fqName).Nodup ∧
    ∀ d ∈ NewSummaryExporter.descs,
      d.variableLabels = [] ∧ d.constLabels = [] ∧ d.err = false := by
  decide

end PuppetRun
